import Mathlib

/-!
Shallow embedding of the auth-service core of shahid-io/studious-pancake
(Go sources under services/auth-service/main.go and libs/domain), together
with theorems checking the natural-language specification against it.

Modelling conventions:
* Wall-clock time is an `Int` measured in seconds (Go `time.Time` /
  `time.Duration` keep their ratios: 15 minutes = 900, 1 hour = 3600,
  7 days = 604800).  `generateRandomToken` alone sees nanoseconds, kept
  abstract as an `Int` parameter.
* GORM rows become Lean structures with the `gorm.Model` auto-increment
  `ID` made explicit as `id : Nat`; the database becomes a `DB` record of
  lists, `db.Create` appends, `db.Save` rewrites the rows whose primary
  key matches, `db.Model(...).Where(...).Update` maps over matching rows,
  and `Where(...).First` is `List.find?`.
* bcrypt is an external library; its contract is modelled by a
  deterministic `bcryptHash` with `bcryptCompare h p = (h == bcryptHash p)`.
* JWT signing is modelled by the claims record itself (signature and
  encoding are external); the embedded expiry is the `exp` claim.
* `crypto/rand.Read` either yields 32 bytes or fails; the caller passes
  the outcome as `Option (List Nat)`.
-/

namespace StudiousPancake

/-- HTTP response envelope: status code plus the `success`, `message`
and `error` fields of the JSON body (`data` payloads are returned
separately by the handler models that need them). -/
structure Response where
  status : Nat
  success : Bool
  message : Option String
  error : Option String
  deriving Repr, DecidableEq

/-- `user.User` (libs/domain/user/user.go). -/
structure User where
  id : Nat
  email : String
  password : String
  firstName : String
  lastName : String
  phone : String
  role : String
  isActive : Bool
  lastLogin : Int
  deriving Repr, DecidableEq

/-- `user.UserProfile`, restricted to the fields registerHandler sets. -/
structure UserProfile where
  id : Nat
  userId : String
  emailNotifications : Bool
  pushNotifications : Bool
  preferredLanguage : String
  currency : String
  deriving Repr, DecidableEq

/-- `user.UserSession` (refresh-token session row). -/
structure UserSession where
  id : Nat
  userId : String
  token : String
  expiresAt : Int
  ipAddress : String
  userAgent : String
  isActive : Bool
  deriving Repr, DecidableEq

/-- `user.UserVerification`. -/
structure UserVerification where
  id : Nat
  userId : String
  emailVerified : Bool
  phoneVerified : Bool
  emailToken : String
  phoneToken : String
  passwordResetToken : String
  passwordResetExpiry : Int
  verifiedAt : Int
  deriving Repr, DecidableEq

/-- `user.UserActivity` (append-only audit row; metadata reduced to the
two fields the service marshals into it). -/
structure UserActivity where
  id : Nat
  userId : String
  activity : String
  ipAddress : String
  userAgent : String
  deriving Repr, DecidableEq

/-- The persistent store the handlers read and write. -/
structure DB where
  users : List User
  profiles : List UserProfile
  sessions : List UserSession
  verifications : List UserVerification
  activities : List UserActivity
  deriving Repr, DecidableEq

/-- Next auto-increment id for a table. -/
def nextId (ids : List Nat) : Nat :=
  ids.foldl Nat.max 0 + 1

def nextUserId (db : DB) : Nat := nextId (db.users.map User.id)
def nextProfileId (db : DB) : Nat := nextId (db.profiles.map UserProfile.id)
def nextSessionId (db : DB) : Nat := nextId (db.sessions.map UserSession.id)
def nextVerificationId (db : DB) : Nat := nextId (db.verifications.map UserVerification.id)
def nextActivityId (db : DB) : Nat := nextId (db.activities.map UserActivity.id)

/-- `db.Where("email = ?", email).First(&u)`: exact (case-sensitive) match. -/
def findUserByEmail (users : List User) (email : String) : Option User :=
  users.find? (fun u => u.email == email)

/-- `db.First(&u, idStr)`: primary-key lookup, the key arriving as the
decimal string the service stores in `user_id` columns. -/
def findUserById (users : List User) (idStr : String) : Option User :=
  users.find? (fun u => toString u.id == idStr)

/-- `db.Save(&user)`: rewrite the row with the same primary key. -/
def saveUser (db : DB) (u : User) : DB :=
  { db with users := db.users.map (fun x => if x.id == u.id then u else x) }

/-- `db.Save(&session)`. -/
def saveSession (db : DB) (s : UserSession) : DB :=
  { db with sessions := db.sessions.map (fun x => if x.id == s.id then s else x) }

/-- `db.Save(&verification)`. -/
def saveVerification (db : DB) (v : UserVerification) : DB :=
  { db with verifications := db.verifications.map (fun x => if x.id == v.id then v else x) }

/-- `logUserActivity` (main.go): `db.Create(&userActivity)`, error ignored. -/
def logUserActivity (db : DB) (userID : Nat) (activity ip ua : String) : DB :=
  { db with activities := db.activities ++
      [{ id := nextActivityId db, userId := toString userID,
         activity := activity, ipAddress := ip, userAgent := ua }] }

/-- Contract of `bcrypt.GenerateFromPassword` as a deterministic model. -/
def bcryptHash (password : String) : String :=
  "bcrypt$" ++ password

/-- Contract of `bcrypt.CompareHashAndPassword`: succeeds exactly when the
stored hash was produced from the supplied password. -/
def bcryptCompare (hash password : String) : Bool :=
  hash == bcryptHash password

/-- `isAccountLocked` (main.go): lockout is not implemented. -/
def isAccountLocked (_userID : Nat) : Bool :=
  false

/-- One hex digit, lower-case, as produced by Go `encoding/hex`. -/
def hexDigit (n : Nat) : Char :=
  if n < 10 then Char.ofNat (48 + n) else Char.ofNat (87 + n)

/-- `hex.EncodeToString` on a byte list. -/
def hexEncodeBytes (bs : List Nat) : String :=
  String.mk ((bs.map (fun b => [hexDigit (b / 16), hexDigit (b % 16)])).flatten)

/-- `generateRandomToken` (main.go:1049-1057).  `randRead` is the outcome
of `rand.Read` on the 32-byte buffer: `some bytes` on success, `none` on
error.  On error the source falls back to
`fmt.Sprintf("%d", time.Now().UnixNano())`. -/
def generateRandomToken (randRead : Option (List Nat)) (nowUnixNano : Int) : String :=
  match randRead with
  | some bytes => hexEncodeBytes bytes
  | none => toString nowUnixNano

/-- `UserSession.IsSessionValid` (user.go:113-115):
`us.IsActive && time.Now().Before(us.ExpiresAt)`. -/
def isSessionValid (s : UserSession) (now : Int) : Bool :=
  s.isActive && decide (now < s.expiresAt)

/-! ## Rate limiter (main.go:32-69) -/

/-- The prune step of `RateLimiter.IsAllowed`: keep timestamps `t` with
`t.After(windowStart)`, i.e. strictly newer than `now - window`. -/
def pruneTimes (times : List Int) (windowStart : Int) : List Int :=
  times.filter (fun t => decide (windowStart < t))

/-- Core of `RateLimiter.IsAllowed` on one identity's recorded timestamps:
prune, then deny when `len >= limit`, else record `now` and allow.
Returns (allowed, new recorded history). -/
def isAllowedTimes (times : List Int) (now : Int) (limit : Nat) (window : Int) :
    Bool × List Int :=
  let validTimes := pruneTimes times (now - window)
  if limit ≤ validTimes.length then (false, validTimes)
  else (true, validTimes ++ [now])

/-- `RateLimiter`: the `requests` map keyed by client IP. -/
structure RateLimiter where
  requests : List (String × List Int)
  deriving Repr, DecidableEq

/-- Read of `rl.requests[ip]` (missing key reads as the empty history). -/
def RateLimiter.get (rl : RateLimiter) (ip : String) : List Int :=
  match rl.requests.find? (fun p => p.1 == ip) with
  | some p => p.2
  | none => []

/-- Write of `rl.requests[ip] = ts`. -/
def RateLimiter.set (rl : RateLimiter) (ip : String) (ts : List Int) : RateLimiter :=
  if rl.requests.any (fun p => p.1 == ip) then
    ⟨rl.requests.map (fun p => if p.1 == ip then (ip, ts) else p)⟩
  else ⟨rl.requests ++ [(ip, ts)]⟩

/-- `RateLimiter.IsAllowed(ip, limit, window)` at wall-clock `now`. -/
def RateLimiter.IsAllowed (rl : RateLimiter) (ip : String) (limit : Nat)
    (window : Int) (now : Int) : Bool × RateLimiter :=
  let r := isAllowedTimes (rl.get ip) now limit window
  (r.1, rl.set ip r.2)

/-- Replay of a monotone request trace for one identity against the
limiter, accumulating (recorded history, all admitted request times). -/
def limiterRunAux (limit : Nat) (window : Int) :
    List Int → List Int × List Int → List Int × List Int
  | [], acc => acc
  | t :: ts, acc =>
    let r := isAllowedTimes acc.1 t limit window
    limiterRunAux limit window ts (r.2, if r.1 then acc.2 ++ [t] else acc.2)

/-- Replay from the empty history. -/
def limiterRun (limit : Nat) (window : Int) (reqs : List Int) :
    List Int × List Int :=
  limiterRunAux limit window reqs ([], [])

/-! ## Token issuance (main.go:1011-1047) -/

/-- The claim set `generateJWTToken` signs. -/
structure JWTClaims where
  sub : Nat
  email : String
  role : String
  exp : Int
  iat : Int
  deriving Repr, DecidableEq

/-- `generateJWTToken` (main.go:1011-1026): expiry is `now + 15 minutes`;
the token is modelled by its claims (signing is external and total here).
Returns (claims, expiresAt). -/
def generateJWTToken (u : User) (now : Int) : JWTClaims × Int :=
  let expiresAt := now + 15 * 60
  ({ sub := u.id, email := u.email, role := u.role,
     exp := expiresAt, iat := now }, expiresAt)

/-- `generateRefreshToken` (main.go:1028-1047): creates and persists a
session with TTL `now + 7 days`.  The fresh opaque token value arrives as
`tok` (the caller's `generateRandomToken` outcome). -/
def generateRefreshToken (db : DB) (userID : Nat) (tok : String) (now : Int)
    (ip ua : String) : UserSession × DB :=
  let s : UserSession :=
    { id := nextSessionId db, userId := toString userID, token := tok,
      expiresAt := now + 7 * 24 * 3600, ipAddress := ip, userAgent := ua,
      isActive := true }
  (s, { db with sessions := db.sessions ++ [s] })

/-! ## Response constants (the literal bodies in main.go) -/

def registerSuccessResp : Response :=
  { status := 201, success := true, message := some "User registered successfully", error := none }
def conflictResp : Response :=
  { status := 409, success := false, message := none, error := some "User already exists with this email" }
def hashFailResp : Response :=
  { status := 500, success := false, message := none, error := some "Failed to hash password" }
def createUserFailResp : Response :=
  { status := 500, success := false, message := none, error := some "Failed to create user" }
def tokenFailResp : Response :=
  { status := 500, success := false, message := none, error := some "Failed to generate token" }
def refreshFailResp : Response :=
  { status := 500, success := false, message := none, error := some "Failed to generate refresh token" }
def newRefreshFailResp : Response :=
  { status := 500, success := false, message := none, error := some "Failed to generate new refresh token" }
def accessTokenFailResp : Response :=
  { status := 500, success := false, message := none, error := some "Failed to generate access token" }
def invalidCredentialsResp : Response :=
  { status := 401, success := false, message := none, error := some "Invalid email or password" }
def accountDeactivatedResp : Response :=
  { status := 401, success := false, message := none, error := some "Account is deactivated" }
def accountLockedResp : Response :=
  { status := 401, success := false, message := none,
    error := some "Account is temporarily locked due to too many failed attempts" }
def loginSuccessResp : Response :=
  { status := 200, success := true, message := some "Login successful", error := none }
def invalidRefreshResp : Response :=
  { status := 401, success := false, message := none, error := some "Invalid refresh token" }
def refreshExpiredResp : Response :=
  { status := 401, success := false, message := none, error := some "Refresh token expired" }
def userNotFoundResp : Response :=
  { status := 404, success := false, message := none, error := some "User not found" }
def refreshSuccessResp : Response :=
  { status := 200, success := true, message := some "Token refreshed successfully", error := none }
def forgotGenericResp : Response :=
  { status := 200, success := true,
    message := some "If the email exists, a password reset link has been sent", error := none }
def passwordMismatchResp : Response :=
  { status := 400, success := false, message := none, error := some "Password confirmation does not match" }
def invalidOrExpiredResetResp : Response :=
  { status := 400, success := false, message := none, error := some "Invalid or expired reset token" }
def resetSuccessResp : Response :=
  { status := 200, success := true, message := some "Password reset successfully", error := none }
def invalidEmailTokenResp : Response :=
  { status := 400, success := false, message := none, error := some "Invalid email verification token" }
def alreadyVerifiedResp : Response :=
  { status := 200, success := true, message := some "Email is already verified", error := none }
def emailVerifiedResp : Response :=
  { status := 200, success := true, message := some "Email verified successfully", error := none }
def resendGenericResp : Response :=
  { status := 200, success := true,
    message := some "If the email exists and is not verified, a verification email has been sent",
    error := none }
def weakPasswordResp (msg : String) : Response :=
  { status := 400, success := false, message := none, error := some msg }

/-! ## Password strength (main.go:176-213) -/

/-- The special-character set of `validatePasswordStrength`. -/
def specialChars : List Char :=
  "!@#$%^&*()_+-=[]\x7b\x7d|;:,.<>?".toList

/-- `validatePasswordStrength`: `none` when the password passes, otherwise
the first failing rule's message, in source order. -/
def validatePasswordStrength (password : String) : Option String :=
  if password.length < 8 then
    some "password must be at least 8 characters long"
  else
    let cs := password.toList
    let hasUpper := cs.any (fun c => decide ('A' ≤ c) && decide (c ≤ 'Z'))
    let hasLower := cs.any (fun c => decide ('a' ≤ c) && decide (c ≤ 'z'))
    let hasDigit := cs.any (fun c => decide ('0' ≤ c) && decide (c ≤ '9'))
    let hasSpecial := cs.any (fun c => specialChars.contains c)
    if !hasUpper then some "password must contain at least one uppercase letter"
    else if !hasLower then some "password must contain at least one lowercase letter"
    else if !hasDigit then some "password must contain at least one digit"
    else if !hasSpecial then some "password must contain at least one special character"
    else none

/-! ## Handlers -/

/-- `auth.RegisterRequest` after JSON binding. -/
structure RegisterRequest where
  email : String
  password : String
  firstName : String
  lastName : String
  phone : String
  role : String
  deriving Repr, DecidableEq

/-- Failure injection for the persistence and signing calls the register
flow makes, in source order.  `true` means that call errors.  The source
checks some of these and silently ignores others. -/
structure PersistOutcomes where
  hashFails : Bool
  userCreateFails : Bool
  profileCreateFails : Bool
  verificationCreateFails : Bool
  jwtSignFails : Bool
  sessionCreateFails : Bool
  deriving Repr, DecidableEq

/-- All persistence and signing calls succeed. -/
def allOk : PersistOutcomes :=
  { hashFails := false, userCreateFails := false, profileCreateFails := false,
    verificationCreateFails := false, jwtSignFails := false, sessionCreateFails := false }

/-- `registerHandler` (main.go:216-307).  `emailTok`, `phoneTok`,
`refreshTok` are the three `generateRandomToken` results it draws; `po`
injects failures of the fallible calls.  Note the source ignores the
errors of `db.Create(&userProfile)` and `db.Create(&verification)`. -/
def registerHandler (db : DB) (now : Int) (req : RegisterRequest)
    (emailTok phoneTok refreshTok ip ua : String) (po : PersistOutcomes) :
    Response × DB :=
  match validatePasswordStrength req.password with
  | some msg => (weakPasswordResp msg, db)
  | none =>
    match findUserByEmail db.users req.email with
    | some _ => (conflictResp, db)
    | none =>
      if po.hashFails then (hashFailResp, db)
      else
        let hashed := bcryptHash req.password
        if po.userCreateFails then (createUserFailResp, db)
        else
          let nu : User :=
            { id := nextUserId db, email := req.email, password := hashed,
              firstName := req.firstName, lastName := req.lastName,
              phone := req.phone, role := req.role, isActive := true, lastLogin := 0 }
          let db1 : DB := { db with users := db.users ++ [nu] }
          let db2 : DB :=
            if po.profileCreateFails then db1
            else { db1 with profiles := db1.profiles ++
              [{ id := nextProfileId db1, userId := toString nu.id,
                 emailNotifications := true, pushNotifications := true,
                 preferredLanguage := "en", currency := "USD" }] }
          let db3 : DB :=
            if po.verificationCreateFails then db2
            else { db2 with verifications := db2.verifications ++
              [{ id := nextVerificationId db2, userId := toString nu.id,
                 emailVerified := false, phoneVerified := false,
                 emailToken := emailTok, phoneToken := phoneTok,
                 passwordResetToken := "", passwordResetExpiry := 0,
                 verifiedAt := 0 }] }
          if po.jwtSignFails then (tokenFailResp, db3)
          else
            if po.sessionCreateFails then (refreshFailResp, db3)
            else
              let r := generateRefreshToken db3 nu.id refreshTok now ip ua
              let db4 := logUserActivity r.2 nu.id "register" ip ua
              (registerSuccessResp, db4)

/-- Successful login payload: the access-token claims with the expiry the
handler reports, and the new refresh session. -/
structure LoginPayload where
  claims : JWTClaims
  accessExpiresAt : Int
  session : UserSession
  deriving Repr, DecidableEq

/-- `loginHandler` (main.go:309-374). -/
def loginHandler (db : DB) (now : Int) (email pw refreshTok ip ua : String) :
    Response × Option LoginPayload × DB :=
  match findUserByEmail db.users email with
  | none => (invalidCredentialsResp, none, db)
  | some u =>
    if !u.isActive then (accountDeactivatedResp, none, db)
    else if isAccountLocked u.id then (accountLockedResp, none, db)
    else if !bcryptCompare u.password pw then (invalidCredentialsResp, none, db)
    else
      let jwt := generateJWTToken u now
      let r := generateRefreshToken db u.id refreshTok now ip ua
      let db1 := saveUser r.2 { u with lastLogin := now }
      let db2 := logUserActivity db1 u.id "login" ip ua
      (loginSuccessResp, some { claims := jwt.1, accessExpiresAt := jwt.2, session := r.1 }, db2)

/-- `refreshTokenHandler` (main.go:394-485).  The lookup is
`Where("token = ? AND is_active = ?", tok, true).First`: it only sees
active sessions.  `newTok` is the random value a successful rotation
would store. -/
def refreshTokenHandler (db : DB) (now : Int) (refreshTok newTok ip ua : String) :
    Response × DB :=
  match db.sessions.find? (fun s => s.token == refreshTok && s.isActive) with
  | none => (invalidRefreshResp, db)
  | some sess =>
    if !isSessionValid sess now then
      (refreshExpiredResp, saveSession db { sess with isActive := false })
    else
      match findUserById db.users sess.userId with
      | none => (userNotFoundResp, db)
      | some u =>
        if !u.isActive then (accountDeactivatedResp, db)
        else
          let db1 := saveSession db { sess with isActive := false }
          let r := generateRefreshToken db1 u.id newTok now ip ua
          let db2 := logUserActivity r.2 u.id "token_refresh" ip ua
          (refreshSuccessResp, db2)

/-- `forgotPasswordHandler` (main.go:539-604).  `resetToken` is the fresh
`generateRandomToken` value; reset expiry is `now + 1 hour`.  The update
touches every verification row whose `user_id` matches; when none exists
a new row is created. -/
def forgotPasswordHandler (db : DB) (now : Int) (email resetToken : String) :
    Response × DB :=
  match findUserByEmail db.users email with
  | none => (forgotGenericResp, db)
  | some u =>
    if !u.isActive then (forgotGenericResp, db)
    else
      let resetExpiry := now + 3600
      let uid := toString u.id
      if db.verifications.any (fun v => v.userId == uid) then
        (forgotGenericResp,
         { db with verifications := db.verifications.map (fun v =>
             if v.userId == uid then
               { v with passwordResetToken := resetToken,
                        passwordResetExpiry := resetExpiry }
             else v) })
      else
        let nv : UserVerification :=
          { id := nextVerificationId db, userId := uid,
            emailVerified := false, phoneVerified := false,
            emailToken := "", phoneToken := "",
            passwordResetToken := resetToken,
            passwordResetExpiry := resetExpiry, verifiedAt := 0 }
        (forgotGenericResp, { db with verifications := db.verifications ++ [nv] })

/-- `resetPasswordHandler` (main.go:606-683).  The token lookup requires
`password_reset_token = tok AND password_reset_expiry > now`; success
clears the token, saves the new hash and deactivates every session of
the user. -/
def resetPasswordHandler (db : DB) (now : Int) (tok newPassword confirmPassword ip ua : String) :
    Response × DB :=
  if newPassword != confirmPassword then (passwordMismatchResp, db)
  else
    match db.verifications.find?
        (fun v => v.passwordResetToken == tok && decide (now < v.passwordResetExpiry)) with
    | none => (invalidOrExpiredResetResp, db)
    | some v =>
      match findUserById db.users v.userId with
      | none => (userNotFoundResp, db)
      | some u =>
        let db1 := saveUser db { u with password := bcryptHash newPassword }
        let db2 := saveVerification db1
          { v with passwordResetToken := "", passwordResetExpiry := 0 }
        let db3 : DB := { db2 with sessions := db2.sessions.map (fun s =>
            if s.userId == v.userId then { s with isActive := false } else s) }
        let db4 := logUserActivity db3 u.id "password_reset_completed" ip ua
        (resetSuccessResp, db4)

/-- `verifyEmailHandler` (main.go:763-835), after token extraction. -/
def verifyEmailHandler (db : DB) (now : Int) (tok ip ua : String) : Response × DB :=
  match db.verifications.find? (fun v => v.emailToken == tok) with
  | none => (invalidEmailTokenResp, db)
  | some v =>
    if v.emailVerified then (alreadyVerifiedResp, db)
    else
      match findUserById db.users v.userId with
      | none => (userNotFoundResp, db)
      | some u =>
        let db1 := saveVerification db
          { v with emailVerified := true, verifiedAt := now, emailToken := "" }
        let db2 := logUserActivity db1 u.id "email_verified" ip ua
        (emailVerifiedResp, db2)

/-- `resendVerificationHandler` (main.go:837-895).  `newTok` is the fresh
`generateRandomToken` value stored on the happy path. -/
def resendVerificationHandler (db : DB) (email newTok ip ua : String) : Response × DB :=
  match findUserByEmail db.users email with
  | none => (resendGenericResp, db)
  | some u =>
    match db.verifications.find? (fun v => v.userId == toString u.id) with
    | none => (resendGenericResp, db)
    | some v =>
      if v.emailVerified then (alreadyVerifiedResp, db)
      else
        let db1 := saveVerification db { v with emailToken := newTok }
        let db2 := logUserActivity db1 u.id "verification_email_resent" ip ua
        (resendGenericResp, db2)

/-! ## Claim C1: replay of an already-rotated refresh token -/

/-- Fixture for C1: one deactivated (rotated) session whose expiry is far
in the future, owned by an active user. -/
def c1user : User :=
  { id := 1, email := "a@b.com", password := bcryptHash "Abcdef1!",
    firstName := "A", lastName := "B", phone := "", role := "customer",
    isActive := true, lastLogin := 0 }

def c1sess : UserSession :=
  { id := 1, userId := "1", token := "tok1", expiresAt := 1000000,
    ipAddress := "ip", userAgent := "ua", isActive := false }

def c1db : DB :=
  { users := [c1user], profiles := [], sessions := [c1sess],
    verifications := [], activities := [] }

/-- C1 counterexample: replaying the already-rotated token "tok1" is
answered with the "Invalid refresh token" outcome, not with the
"Refresh token expired" outcome the claim requires. -/
theorem c1_counterexample :
    (refreshTokenHandler c1db 100 "tok1" "nt" "ip" "ua").1 = invalidRefreshResp ∧
    invalidRefreshResp ≠ refreshExpiredResp := by
  constructor
  · rfl
  · decide

/-- C1 (amended): the session lookup of `refreshTokenHandler` filters on
`is_active = true`, so an already-rotated (deactivated) refresh token is
never found by it; the request is rejected with the `RefreshTokenInvalid`
outcome ("Invalid refresh token"), indistinguishable from an unknown
token, and the store is left unchanged. -/
theorem c1_rotated_token_rejected_as_invalid
    (db : DB) (now : Int) (tok newTok ip ua : String)
    (_hstale : ∃ s ∈ db.sessions, s.token = tok ∧ s.isActive = false)
    (hnoactive : ∀ s ∈ db.sessions, s.token = tok → s.isActive = false) :
    refreshTokenHandler db now tok newTok ip ua = (invalidRefreshResp, db) := by
  have hfind : db.sessions.find? (fun s => s.token == tok && s.isActive) = none := by
    apply List.find?_eq_none.mpr
    intro s hs
    by_cases ht : s.token = tok
    · simp [ht, hnoactive s hs ht]
    · simp [ht]
  simp [refreshTokenHandler, hfind]

/-- C1 amended-claim witness at the concrete fixture. -/
theorem c1_rotated_token_rejected_as_invalid_witness :
    refreshTokenHandler c1db 100 "tok1" "nt" "ip" "ua" = (invalidRefreshResp, c1db) :=
  c1_rotated_token_rejected_as_invalid c1db 100 "tok1" "nt" "ip" "ua"
    ⟨c1sess, by decide, by decide, by decide⟩
    (by decide)

/-! ## Claim C3: duplicate registration and email casing -/

def c3db : DB :=
  { users := [{ id := 1, email := "a@b.com", password := bcryptHash "Abcdef1!",
                firstName := "A", lastName := "B", phone := "", role := "customer",
                isActive := true, lastLogin := 0 }],
    profiles := [], sessions := [], verifications := [], activities := [] }

def c3req : RegisterRequest :=
  { email := "A@B.com", password := "Abcdef1!", firstName := "X",
    lastName := "Y", phone := "", role := "customer" }

/-- C3 counterexample: with "a@b.com" already registered, a second
registration using the casing "A@B.com" is not rejected with 409: it
succeeds with 201 and a second User record is created. -/
theorem c3_counterexample :
    (registerHandler c3db 0 c3req "et" "pt" "rt" "ip" "ua" allOk).1 ≠ conflictResp ∧
    (registerHandler c3db 0 c3req "et" "pt" "rt" "ip" "ua" allOk).1 = registerSuccessResp ∧
    (registerHandler c3db 0 c3req "et" "pt" "rt" "ip" "ua" allOk).2.users.length = 2 := by
  refine ⟨?_, rfl, rfl⟩
  decide

/-- C3 (amended): the duplicate check of `registerHandler` is an exact,
case-sensitive match on the stored email: a second registration with the
byte-identical email (and a strength-passing password) is rejected with
`ConflictError` (HTTP 409) and no record is created, but a different
casing of the same address is not detected and creates a second User. -/
theorem c3_exact_email_duplicate_conflict
    (db : DB) (now : Int) (req : RegisterRequest) (etok ptok rtok ip ua : String)
    (po : PersistOutcomes) (u : User)
    (hstrong : validatePasswordStrength req.password = none)
    (hdup : findUserByEmail db.users req.email = some u) :
    registerHandler db now req etok ptok rtok ip ua po = (conflictResp, db) := by
  simp [registerHandler, hstrong, hdup]

/-- C3 amended-claim witness: re-registering the exact email "a@b.com". -/
theorem c3_exact_email_duplicate_conflict_witness :
    registerHandler c3db 0 { c3req with email := "a@b.com" } "et" "pt" "rt" "ip" "ua" allOk
      = (conflictResp, c3db) :=
  c3_exact_email_duplicate_conflict c3db 0 { c3req with email := "a@b.com" }
    "et" "pt" "rt" "ip" "ua" allOk
    { id := 1, email := "a@b.com", password := bcryptHash "Abcdef1!",
      firstName := "A", lastName := "B", phone := "", role := "customer",
      isActive := true, lastLogin := 0 }
    (by decide) (by decide)

/-! ## Claim C4: random-token source failure handling -/

/-- C4: `generateRandomToken` has no error channel at all; when
`crypto/rand.Read` fails it silently returns the nanosecond wall-clock
timestamp rendered in decimal as the "token" — the time-based fallback
the specification says must be flagged as an error.  Evaluated here at
the failing input: with the random source failing, the function returns
`toString nowUnixNano` as a success value. -/
theorem c4_rand_failure_silently_falls_back_to_time (nowUnixNano : Int) :
    generateRandomToken none nowUnixNano = toString nowUnixNano := rfl

/-! ## Claim C5: enumeration resistance of verification issuance -/

def c5verifiedRec : UserVerification :=
  { id := 1, userId := "1", emailVerified := true, phoneVerified := false,
    emailToken := "etok", phoneToken := "", passwordResetToken := "",
    passwordResetExpiry := 0, verifiedAt := 5 }

def c5db : DB :=
  { users := [{ id := 1, email := "a@b.com", password := bcryptHash "Abcdef1!",
                firstName := "A", lastName := "B", phone := "", role := "customer",
                isActive := true, lastLogin := 0 }],
    profiles := [], sessions := [], verifications := [c5verifiedRec], activities := [] }

/-- C5 counterexample: for a registered, already-verified email the
resend-verification endpoint answers "Email is already verified", while
for an absent email it answers the generic message — the two responses
differ, so the caller can distinguish whether the email exists. -/
theorem c5_counterexample :
    (resendVerificationHandler c5db "a@b.com" "nt" "ip" "ua").1 = alreadyVerifiedResp ∧
    (resendVerificationHandler c5db "ghost@x.com" "nt" "ip" "ua").1 = resendGenericResp ∧
    alreadyVerifiedResp ≠ resendGenericResp := by
  refine ⟨rfl, rfl, ?_⟩
  decide

/-- C5 (amended): in `resendVerificationHandler` the email-not-found and
missing-verification-record paths do return the same generic success
message as the happy path, but the token-already-verified path returns
the distinct success message "Email is already verified"; likewise
`verifyEmailHandler` answers "Invalid email verification token" (400),
"Email is already verified" and "Email verified successfully" on its
three paths.  The already-verified responses therefore reveal that the
email exists. -/
theorem c5_verification_paths
    (db : DB) (now : Int) (email tk ip ua : String) :
    (findUserByEmail db.users email = none →
      resendVerificationHandler db email tk ip ua = (resendGenericResp, db)) ∧
    (∀ u, findUserByEmail db.users email = some u →
      db.verifications.find? (fun v => v.userId == toString u.id) = none →
      resendVerificationHandler db email tk ip ua = (resendGenericResp, db)) ∧
    (∀ u v, findUserByEmail db.users email = some u →
      db.verifications.find? (fun v => v.userId == toString u.id) = some v →
      v.emailVerified = false →
      (resendVerificationHandler db email tk ip ua).1 = resendGenericResp) ∧
    (∀ u v, findUserByEmail db.users email = some u →
      db.verifications.find? (fun v => v.userId == toString u.id) = some v →
      v.emailVerified = true →
      (resendVerificationHandler db email tk ip ua).1 = alreadyVerifiedResp) ∧
    (db.verifications.find? (fun v => v.emailToken == tk) = none →
      verifyEmailHandler db now tk ip ua = (invalidEmailTokenResp, db)) ∧
    (∀ v, db.verifications.find? (fun v => v.emailToken == tk) = some v →
      v.emailVerified = true →
      verifyEmailHandler db now tk ip ua = (alreadyVerifiedResp, db)) ∧
    alreadyVerifiedResp ≠ resendGenericResp ∧
    alreadyVerifiedResp ≠ emailVerifiedResp := by
  refine ⟨?_, ?_, ?_, ?_, ?_, ?_, by decide, by decide⟩
  · intro h; simp [resendVerificationHandler, h]
  · intro u hu hv; simp [resendVerificationHandler, hu, hv]
  · intro u v hu hv hnv; simp [resendVerificationHandler, hu, hv, hnv]
  · intro u v hu hv hyv; simp [resendVerificationHandler, hu, hv, hyv]
  · intro h; simp [verifyEmailHandler, h]
  · intro v hv hyv; simp [verifyEmailHandler, hv, hyv]

/-- C5 amended-claim witness at the concrete fixture. -/
theorem c5_verification_paths_witness :
    (resendVerificationHandler c5db "a@b.com" "nt" "ip" "ua").1 = alreadyVerifiedResp :=
  (c5_verification_paths c5db 0 "a@b.com" "nt" "ip" "ua").2.2.2.1
    { id := 1, email := "a@b.com", password := bcryptHash "Abcdef1!",
      firstName := "A", lastName := "B", phone := "", role := "customer",
      isActive := true, lastLogin := 0 }
    c5verifiedRec (by decide) (by decide) (by decide)

/-! ## Claim C8: partial failure in the register flow -/

def c8req : RegisterRequest :=
  { email := "a@b.com", password := "Abcdef1!", firstName := "X",
    lastName := "Y", phone := "", role := "customer" }

def c8db : DB :=
  { users := [], profiles := [], sessions := [], verifications := [], activities := [] }

/-- C8 counterexample: when the profile-creation step fails mid-register
(the source ignores the error of `db.Create(&userProfile)`), the flow
still answers 201 "User registered successfully" although the User row
was created and no profile row exists. -/
theorem c8_counterexample :
    (registerHandler c8db 0 c8req "et" "pt" "rt" "ip" "ua"
        { allOk with profileCreateFails := true }).1 = registerSuccessResp ∧
    (registerHandler c8db 0 c8req "et" "pt" "rt" "ip" "ua"
        { allOk with profileCreateFails := true }).2.users.length = 1 ∧
    (registerHandler c8db 0 c8req "et" "pt" "rt" "ip" "ua"
        { allOk with profileCreateFails := true }).2.profiles = [] := by
  exact ⟨rfl, rfl, rfl⟩

/-- C8 (amended): in the register flow the failures the source checks
(user creation, password hashing, token and refresh-session issuance)
are surfaced as hard 500 errors, but the errors of profile creation and
verification-record creation are silently dropped: those flows answer
201 success while the corresponding row is missing. -/
theorem c8_register_partial_failure
    (db : DB) (now : Int) (req : RegisterRequest) (etok ptok rtok ip ua : String)
    (hstrong : validatePasswordStrength req.password = none)
    (hfresh : findUserByEmail db.users req.email = none) :
    (registerHandler db now req etok ptok rtok ip ua
        { allOk with userCreateFails := true } = (createUserFailResp, db)) ∧
    (registerHandler db now req etok ptok rtok ip ua
        { allOk with hashFails := true } = (hashFailResp, db)) ∧
    ((registerHandler db now req etok ptok rtok ip ua
        { allOk with jwtSignFails := true }).1 = tokenFailResp) ∧
    ((registerHandler db now req etok ptok rtok ip ua
        { allOk with sessionCreateFails := true }).1 = refreshFailResp) ∧
    ((registerHandler db now req etok ptok rtok ip ua
        { allOk with profileCreateFails := true }).1 = registerSuccessResp) ∧
    ((registerHandler db now req etok ptok rtok ip ua
        { allOk with profileCreateFails := true }).2.profiles = db.profiles) ∧
    ((registerHandler db now req etok ptok rtok ip ua
        { allOk with profileCreateFails := true }).2.users.length
        = db.users.length + 1) ∧
    ((registerHandler db now req etok ptok rtok ip ua
        { allOk with verificationCreateFails := true }).1 = registerSuccessResp) ∧
    ((registerHandler db now req etok ptok rtok ip ua
        { allOk with verificationCreateFails := true }).2.verifications
        = db.verifications) := by
  refine ⟨?_, ?_, ?_, ?_, ?_, ?_, ?_, ?_, ?_⟩ <;>
    simp [registerHandler, hstrong, hfresh, allOk, logUserActivity, generateRefreshToken]

/-- C8 amended-claim witness at the concrete fixture. -/
theorem c8_register_partial_failure_witness :
    (registerHandler c8db 0 c8req "et" "pt" "rt" "ip" "ua"
        { allOk with userCreateFails := true } = (createUserFailResp, c8db)) ∧
    ((registerHandler c8db 0 c8req "et" "pt" "rt" "ip" "ua"
        { allOk with profileCreateFails := true }).2.profiles = c8db.profiles) :=
  ⟨(c8_register_partial_failure c8db 0 c8req "et" "pt" "rt" "ip" "ua"
      (by decide) (by decide)).1,
   (c8_register_partial_failure c8db 0 c8req "et" "pt" "rt" "ip" "ua"
      (by decide) (by decide)).2.2.2.2.2.1⟩

/-! ## Claim C10: refresh with an active but expired session -/

def c10sess : UserSession :=
  { id := 1, userId := "1", token := "tokX", expiresAt := 50,
    ipAddress := "ip", userAgent := "ua", isActive := true }

def c10db : DB :=
  { users := [{ id := 1, email := "a@b.com", password := bcryptHash "Abcdef1!",
                firstName := "A", lastName := "B", phone := "", role := "customer",
                isActive := true, lastLogin := 0 }],
    profiles := [], sessions := [c10sess], verifications := [], activities := [] }

/-- C10: when refresh is called with a token whose session is still
active but past its expiry, the handler persists `is_active = false` for
that session (the whole error path's only mutation), answers
"Refresh token expired", and a subsequent active-session lookup of the
same token finds nothing. -/
theorem c10_expired_session_deactivated_on_refresh
    (db : DB) (now : Int) (tok newTok ip ua : String) (s : UserSession)
    (hfind : db.sessions.find? (fun x => x.token == tok && x.isActive) = some s)
    (hexp : s.expiresAt ≤ now)
    (huniq : ∀ x ∈ db.sessions, x.token = tok → x.id = s.id) :
    (refreshTokenHandler db now tok newTok ip ua).1 = refreshExpiredResp ∧
    (refreshTokenHandler db now tok newTok ip ua).2
      = saveSession db { s with isActive := false } ∧
    ((refreshTokenHandler db now tok newTok ip ua).2.sessions.find?
      (fun x => x.token == tok && x.isActive)) = none := by
  have hs := List.find?_some hfind
  simp only [Bool.and_eq_true, beq_iff_eq] at hs
  obtain ⟨hstok, hsact⟩ := hs
  have hvalid : isSessionValid s now = false := by
    unfold isSessionValid
    rw [hsact]
    simp only [Bool.true_and, decide_eq_false_iff_not]
    omega
  have hhandler : refreshTokenHandler db now tok newTok ip ua
      = (refreshExpiredResp, saveSession db { s with isActive := false }) := by
    simp [refreshTokenHandler, hfind, hvalid]
  refine ⟨by rw [hhandler], by rw [hhandler], ?_⟩
  rw [hhandler]
  apply List.find?_eq_none.mpr
  intro x hx
  simp only [saveSession] at hx
  obtain ⟨y, hy, hxy⟩ := List.mem_map.mp hx
  by_cases hid : (y.id == s.id) = true
  · rw [if_pos hid] at hxy
    rw [← hxy]
    simp
  · rw [if_neg (by simpa using hid)] at hxy
    rw [← hxy]
    by_cases hyt : y.token = tok
    · exact absurd (beq_iff_eq.mpr (huniq y hy hyt)) (by simpa using hid)
    · simp [hyt]

/-- C10 witness at the concrete fixture. -/
theorem c10_expired_session_deactivated_on_refresh_witness :
    (refreshTokenHandler c10db 100 "tokX" "nt" "ip" "ua").1 = refreshExpiredResp ∧
    ((refreshTokenHandler c10db 100 "tokX" "nt" "ip" "ua").2.sessions.find?
      (fun x => x.token == "tokX" && x.isActive)) = none :=
  ⟨(c10_expired_session_deactivated_on_refresh c10db 100 "tokX" "nt" "ip" "ua"
      c10sess (by decide) (by decide) (by decide)).1,
   (c10_expired_session_deactivated_on_refresh c10db 100 "tokX" "nt" "ip" "ua"
      c10sess (by decide) (by decide) (by decide)).2.2⟩

/-! ## Claim C6: forgot-password enumeration resistance -/

def c6user : User :=
  { id := 1, email := "real@x.com", password := bcryptHash "Abcdef1!",
    firstName := "A", lastName := "B", phone := "", role := "customer",
    isActive := true, lastLogin := 0 }

def c6db : DB :=
  { users := [c6user], profiles := [], sessions := [],
    verifications := [], activities := [] }

/-- C6: forgot-password answers the identical generic 200 response for a
registered active email and for an absent email; only the former stores
a reset token (expiry `now + 1 hour`) on that user's verification
record, and the absent-email request leaves the store untouched. -/
theorem c6_forgot_password_enumeration_resistant
    (db : DB) (now : Int) (e1 e2 rstk : String) (u : User)
    (h1 : findUserByEmail db.users e1 = some u)
    (hact : u.isActive = true)
    (h2 : findUserByEmail db.users e2 = none) :
    (forgotPasswordHandler db now e1 rstk).1 = forgotGenericResp ∧
    (forgotPasswordHandler db now e2 rstk).1 = forgotGenericResp ∧
    (forgotPasswordHandler db now e2 rstk).2 = db ∧
    ∃ v ∈ (forgotPasswordHandler db now e1 rstk).2.verifications,
      v.userId = toString u.id ∧ v.passwordResetToken = rstk ∧
      v.passwordResetExpiry = now + 3600 := by
  have habsent : forgotPasswordHandler db now e2 rstk = (forgotGenericResp, db) := by
    simp [forgotPasswordHandler, h2]
  refine ⟨?_, by rw [habsent], by rw [habsent], ?_⟩
  · by_cases hany : db.verifications.any (fun v => v.userId == toString u.id) <;>
      simp [forgotPasswordHandler, h1, hact, hany]
  · by_cases hany : db.verifications.any (fun v => v.userId == toString u.id)
    · simp only [forgotPasswordHandler, h1, hact, hany, Bool.not_true,
        Bool.false_eq_true, if_false, if_true]
      obtain ⟨v0, hv0mem, hv0uid⟩ := List.any_eq_true.mp hany
      refine ⟨{ v0 with passwordResetToken := rstk,
                        passwordResetExpiry := now + 3600 }, ?_, ?_, rfl, rfl⟩
      · exact List.mem_map.mpr ⟨v0, hv0mem, by rw [if_pos hv0uid]⟩
      · exact beq_iff_eq.mp hv0uid
    · simp only [forgotPasswordHandler, h1, hact, hany, Bool.not_true,
        Bool.false_eq_true, if_false]
      exact ⟨_, List.mem_append_right _ (List.mem_singleton_self _), rfl, rfl, rfl⟩

/-- C6 witness at the concrete fixture. -/
theorem c6_forgot_password_enumeration_resistant_witness :
    (forgotPasswordHandler c6db 1000 "real@x.com" "rstk").1 = forgotGenericResp ∧
    (forgotPasswordHandler c6db 1000 "ghost@x.com" "rstk").1 = forgotGenericResp :=
  ⟨(c6_forgot_password_enumeration_resistant c6db 1000 "real@x.com" "ghost@x.com"
      "rstk" c6user (by decide) (by decide) (by decide)).1,
   (c6_forgot_password_enumeration_resistant c6db 1000 "real@x.com" "ghost@x.com"
      "rstk" c6user (by decide) (by decide) (by decide)).2.1⟩

/-! ## Claim C7: password-reset token lifetime -/

def c7user : User :=
  { id := 1, email := "a@b.com", password := bcryptHash "Abcdef1!",
    firstName := "A", lastName := "B", phone := "", role := "customer",
    isActive := true, lastLogin := 0 }

def c7db : DB :=
  { users := [c7user], profiles := [], sessions := [],
    verifications := [], activities := [] }

/-- C7: a reset token issued by forgot-password at time `t0` is stored
with expiry exactly `t0 + 1 hour`; presenting it one second before that
expiry succeeds with "Password reset successfully", and one second after
it fails with the expired-token rejection (the source renders
`TokenExpired` and `TokenInvalid` as the single
"Invalid or expired reset token" outcome of the
`password_reset_expiry > now` lookup). -/
theorem c7_reset_token_one_hour_expiry
    (db : DB) (t0 : Int) (email rstk np ip ua : String) (u : User)
    (hfind : findUserByEmail db.users email = some u)
    (hact : u.isActive = true)
    (hnov : ∀ v ∈ db.verifications, (v.userId == toString u.id) = false)
    (hfresh : ∀ v ∈ db.verifications, v.passwordResetToken ≠ rstk) :
    (∃ v ∈ (forgotPasswordHandler db t0 email rstk).2.verifications,
      v.passwordResetToken = rstk ∧ v.passwordResetExpiry = t0 + 3600) ∧
    (resetPasswordHandler (forgotPasswordHandler db t0 email rstk).2
        (t0 + 3600 - 1) rstk np np ip ua).1 = resetSuccessResp ∧
    (resetPasswordHandler (forgotPasswordHandler db t0 email rstk).2
        (t0 + 3600 + 1) rstk np np ip ua).1 = invalidOrExpiredResetResp := by
  have hany : db.verifications.any (fun v => v.userId == toString u.id) = false := by
    rw [List.any_eq_false]
    intro v hv
    simp [hnov v hv]
  have hforgot : (forgotPasswordHandler db t0 email rstk).2
      = { db with verifications := db.verifications ++
          [{ id := nextVerificationId db, userId := toString u.id,
             emailVerified := false, phoneVerified := false,
             emailToken := "", phoneToken := "",
             passwordResetToken := rstk, passwordResetExpiry := t0 + 3600,
             verifiedAt := 0 }] } := by
    simp [forgotPasswordHandler, hfind, hact, hany]
  have holdNone : ∀ now : Int, db.verifications.find?
      (fun v => v.passwordResetToken == rstk && decide (now < v.passwordResetExpiry))
        = none := by
    intro now
    apply List.find?_eq_none.mpr
    intro v hv
    simp [hfresh v hv]
  refine ⟨?_, ?_, ?_⟩
  · rw [hforgot]
    exact ⟨_, List.mem_append_right _ (List.mem_singleton_self _), rfl, rfl⟩
  · -- success at expiry - 1
    have hfindv : ((forgotPasswordHandler db t0 email rstk).2.verifications.find?
        (fun v => v.passwordResetToken == rstk &&
          decide (t0 + 3600 - 1 < v.passwordResetExpiry)))
        = some { id := nextVerificationId db, userId := toString u.id,
                 emailVerified := false, phoneVerified := false,
                 emailToken := "", phoneToken := "",
                 passwordResetToken := rstk, passwordResetExpiry := t0 + 3600,
                 verifiedAt := 0 } := by
      rw [hforgot]
      simp only [List.find?_append, holdNone (t0 + 3600 - 1), Option.none_or]
      simp [List.find?]
    have humem : u ∈ db.users := List.mem_of_find?_eq_some hfind
    have huser : ((forgotPasswordHandler db t0 email rstk).2.users.find?
        (fun x => toString x.id == toString u.id)).isSome := by
      rw [hforgot]
      rw [List.find?_isSome]
      exact ⟨u, humem, by simp⟩
    obtain ⟨w, hw⟩ := Option.isSome_iff_exists.mp huser
    simp [resetPasswordHandler, hfindv, findUserById, hw]
  · -- failure at expiry + 1
    have hfindv : ((forgotPasswordHandler db t0 email rstk).2.verifications.find?
        (fun v => v.passwordResetToken == rstk &&
          decide (t0 + 3600 + 1 < v.passwordResetExpiry))) = none := by
      rw [hforgot]
      simp only [List.find?_append, holdNone (t0 + 3600 + 1), Option.none_or]
      simp [List.find?]
    simp [resetPasswordHandler, hfindv]

/-- C7 witness at the concrete fixture. -/
theorem c7_reset_token_one_hour_expiry_witness :
    (resetPasswordHandler (forgotPasswordHandler c7db 1000 "a@b.com" "rstk").2
        (1000 + 3600 - 1) "rstk" "Newpass1!" "Newpass1!" "ip" "ua").1 = resetSuccessResp ∧
    (resetPasswordHandler (forgotPasswordHandler c7db 1000 "a@b.com" "rstk").2
        (1000 + 3600 + 1) "rstk" "Newpass1!" "Newpass1!" "ip" "ua").1 = invalidOrExpiredResetResp :=
  ⟨(c7_reset_token_one_hour_expiry c7db 1000 "a@b.com" "rstk" "Newpass1!" "ip" "ua"
      c7user (by decide) (by decide) (by decide) (by decide)).2.1,
   (c7_reset_token_one_hour_expiry c7db 1000 "a@b.com" "rstk" "Newpass1!" "ip" "ua"
      c7user (by decide) (by decide) (by decide) (by decide)).2.2⟩

/-! ## Claim C9: register, then immediate login -/

/-- Register-flow bookkeeping shared by the C9 development: under
successful persistence a register appends exactly one User row carrying
the request's email, the bcrypt hash of the request's password and the
active flag. -/
theorem registerHandler_allOk_users
    (db : DB) (now : Int) (req : RegisterRequest) (etok ptok rtok ip ua : String)
    (hstrong : validatePasswordStrength req.password = none)
    (hfresh : findUserByEmail db.users req.email = none) :
    (registerHandler db now req etok ptok rtok ip ua allOk).1 = registerSuccessResp ∧
    (registerHandler db now req etok ptok rtok ip ua allOk).2.users
      = db.users ++ [{ id := nextUserId db, email := req.email,
                       password := bcryptHash req.password, firstName := req.firstName,
                       lastName := req.lastName, phone := req.phone, role := req.role,
                       isActive := true, lastLogin := 0 }] := by
  simp [registerHandler, hstrong, hfresh, allOk, generateRefreshToken, logUserActivity]

/-- C9: after a successful registration, an immediate login at time `t1`
with the same email and password succeeds, and returns a refresh session
whose expiry is exactly `t1 + 7 days` and an access token whose embedded
`exp` claim (the expiry the handler also reports) is exactly
`t1 + 15 minutes`. -/
theorem c9_register_then_login_token_lifetimes
    (db : DB) (t0 t1 : Int) (req : RegisterRequest)
    (etok ptok rtok1 rtok2 ip ua : String)
    (hstrong : validatePasswordStrength req.password = none)
    (hfresh : findUserByEmail db.users req.email = none) :
    (registerHandler db t0 req etok ptok rtok1 ip ua allOk).1 = registerSuccessResp ∧
    ∃ p : LoginPayload,
      (loginHandler (registerHandler db t0 req etok ptok rtok1 ip ua allOk).2
          t1 req.email req.password rtok2 ip ua).1 = loginSuccessResp ∧
      (loginHandler (registerHandler db t0 req etok ptok rtok1 ip ua allOk).2
          t1 req.email req.password rtok2 ip ua).2.1 = some p ∧
      p.session.expiresAt = t1 + 7 * 24 * 3600 ∧
      p.accessExpiresAt = t1 + 15 * 60 ∧
      p.claims.exp = t1 + 15 * 60 ∧ p.claims.iat = t1 := by
  obtain ⟨hresp, husers⟩ :=
    registerHandler_allOk_users db t0 req etok ptok rtok1 ip ua hstrong hfresh
  have hfindR : findUserByEmail
      (registerHandler db t0 req etok ptok rtok1 ip ua allOk).2.users req.email
      = some { id := nextUserId db, email := req.email,
               password := bcryptHash req.password, firstName := req.firstName,
               lastName := req.lastName, phone := req.phone, role := req.role,
               isActive := true, lastLogin := 0 } := by
    unfold findUserByEmail at hfresh ⊢
    rw [husers, List.find?_append, hfresh, Option.none_or]
    simp [List.find?]
  have hcmp : bcryptCompare (bcryptHash req.password) req.password = true := by
    simp [bcryptCompare]
  refine ⟨hresp, ?_⟩
  refine ⟨{ claims := { sub := nextUserId db, email := req.email, role := req.role,
                        exp := t1 + 15 * 60, iat := t1 },
            accessExpiresAt := t1 + 15 * 60,
            session := { id := nextSessionId
                           (registerHandler db t0 req etok ptok rtok1 ip ua allOk).2,
                         userId := toString (nextUserId db), token := rtok2,
                         expiresAt := t1 + 7 * 24 * 3600, ipAddress := ip,
                         userAgent := ua, isActive := true } },
         ?_, ?_, rfl, rfl, rfl, rfl⟩ <;>
    simp [loginHandler, hfindR, hcmp, isAccountLocked, generateJWTToken,
      generateRefreshToken]

/-- C9 witness fixtures. -/
def c9req : RegisterRequest :=
  { email := "a@b.com", password := "Abcdef1!", firstName := "X",
    lastName := "Y", phone := "", role := "customer" }

def c9db : DB :=
  { users := [], profiles := [], sessions := [], verifications := [], activities := [] }

/-- C9 witness: the theorem instantiated at the empty store. -/
theorem c9_register_then_login_token_lifetimes_witness :
    (registerHandler c9db 0 c9req "et" "pt" "rt1" "ip" "ua" allOk).1 = registerSuccessResp ∧
    ∃ p : LoginPayload,
      (loginHandler (registerHandler c9db 0 c9req "et" "pt" "rt1" "ip" "ua" allOk).2
          50 c9req.email c9req.password "rt2" "ip" "ua").1 = loginSuccessResp ∧
      (loginHandler (registerHandler c9db 0 c9req "et" "pt" "rt1" "ip" "ua" allOk).2
          50 c9req.email c9req.password "rt2" "ip" "ua").2.1 = some p ∧
      p.session.expiresAt = 50 + 7 * 24 * 3600 ∧
      p.accessExpiresAt = 50 + 15 * 60 ∧
      p.claims.exp = 50 + 15 * 60 ∧ p.claims.iat = 50 :=
  c9_register_then_login_token_lifetimes c9db 0 50 c9req "et" "pt" "rt1" "rt2" "ip" "ua"
    (by decide) (by decide)

/-! ## Claim C2: sliding-window rate limiter -/

/-- Filtering by a later strict cutoff after an earlier one equals
filtering by the later cutoff alone. -/
theorem filter_cutoff_absorb (l : List Int) (a b : Int) (hab : a ≤ b) :
    (l.filter (fun u => decide (a < u))).filter (fun u => decide (b < u))
      = l.filter (fun u => decide (b < u)) := by
  rw [List.filter_filter]
  apply List.filter_congr
  intro u _
  by_cases hb : b < u
  · simp [hb, lt_of_le_of_lt hab hb]
  · simp [hb]

/-- Interval-count preservation for the limiter replay: if the current
history is exactly the admitted times newer than `T - window` and every
window-sized interval holds at most `limit` admitted times, then after
replaying any further monotone request trace every window-sized interval
still holds at most `limit` admitted times. -/
theorem limiterRunAux_interval_bound (limit : Nat) (window : Int) (hw : 0 < window) :
    ∀ (reqs st adm : List Int) (T : Int),
      List.Pairwise (fun a b : Int => a ≤ b) reqs →
      (∀ t ∈ reqs, T ≤ t) →
      st = adm.filter (fun u => decide (T - window < u)) →
      (∀ s : Int, (adm.filter
        (fun u => decide (s < u) && decide (u ≤ s + window))).length ≤ limit) →
      ∀ s : Int,
        ((limiterRunAux limit window reqs (st, adm)).2.filter
          (fun u => decide (s < u) && decide (u ≤ s + window))).length ≤ limit := by
  intro reqs
  induction reqs with
  | nil =>
    intro st adm T _ _ _ hbound s
    simpa [limiterRunAux] using hbound s
  | cons t ts ih =>
    intro st adm T hpw hT hst hbound s
    obtain ⟨hhead, htail⟩ := List.pairwise_cons.mp hpw
    have hTt : T ≤ t := hT t (List.mem_cons_self t ts)
    have hvalid : pruneTimes st (t - window)
        = adm.filter (fun u => decide (t - window < u)) := by
      rw [hst]
      exact filter_cutoff_absorb adm (T - window) (t - window) (by omega)
    by_cases hadm : limit ≤ (pruneTimes st (t - window)).length
    · have hrun : limiterRunAux limit window (t :: ts) (st, adm)
          = limiterRunAux limit window ts (pruneTimes st (t - window), adm) := by
        simp [limiterRunAux, isAllowedTimes, hadm]
      rw [hrun]
      exact ih (pruneTimes st (t - window)) adm t htail hhead (by rw [hvalid]) hbound s
    · push_neg at hadm
      have hrun : limiterRunAux limit window (t :: ts) (st, adm)
          = limiterRunAux limit window ts
              (pruneTimes st (t - window) ++ [t], adm ++ [t]) := by
        simp [limiterRunAux, isAllowedTimes, Nat.not_le.mpr hadm]
      rw [hrun]
      have hst' : pruneTimes st (t - window) ++ [t]
          = (adm ++ [t]).filter (fun u => decide (t - window < u)) := by
        rw [List.filter_append, hvalid]
        simp [show t - window < t by omega]
      have hbound' : ∀ s : Int,
          (((adm ++ [t]).filter
            (fun u => decide (s < u) && decide (u ≤ s + window))).length ≤ limit) := by
        intro s
        rw [List.filter_append, List.length_append]
        by_cases hin : s < t ∧ t ≤ s + window
        · have hsub : (adm.filter
              (fun u => decide (s < u) && decide (u ≤ s + window))).length
              ≤ (adm.filter (fun u => decide (t - window < u))).length := by
            apply List.Sublist.length_le
            apply List.monotone_filter_right
            intro a ha
            simp only [Bool.and_eq_true, decide_eq_true_eq] at ha
            simp only [decide_eq_true_eq]
            omega
          have hlt : (adm.filter
              (fun u => decide (s < u) && decide (u ≤ s + window))).length < limit := by
            calc (adm.filter
                (fun u => decide (s < u) && decide (u ≤ s + window))).length
                ≤ (adm.filter (fun u => decide (t - window < u))).length := hsub
              _ < limit := by rw [← hvalid]; exact hadm
          have hone : (([t].filter
              (fun u => decide (s < u) && decide (u ≤ s + window))).length) = 1 := by
            simp [hin.1, hin.2]
          omega
        · have hzero : ([t].filter
              (fun u => decide (s < u) && decide (u ≤ s + window))) = [] := by
            rcases not_and_or.mp hin with h | h <;> simp [h]
          have := hbound s
          rw [hzero]
          simpa using this
      exact ih _ _ t htail hhead hst' hbound' s

/-- C2: the rate limiter's admission check first prunes timestamps older
than `now - window`, returns allowed and records `now` iff the remaining
count is strictly below `limit`, and denies without recording otherwise;
consequently over any monotone request trace at most `limit` requests
fall in any window-sized interval of the admitted list, an arrival whose
pruned history already holds `limit` entries is denied, and a request
arriving after the window has slid past every recorded entry is
admitted again. -/
theorem c2_rate_limiter_sliding_window (limit : Nat) (window : Int) (reqs : List Int)
    (hw : 0 < window)
    (hmono : List.Pairwise (fun a b : Int => a ≤ b) reqs) :
    (∀ times now, isAllowedTimes times now limit window
        = if (pruneTimes times (now - window)).length < limit
          then (true, pruneTimes times (now - window) ++ [now])
          else (false, pruneTimes times (now - window))) ∧
    (∀ s : Int, (((limiterRun limit window reqs).2.filter
        (fun u => decide (s < u) && decide (u ≤ s + window))).length ≤ limit)) ∧
    (∀ times now, limit ≤ (pruneTimes times (now - window)).length →
        isAllowedTimes times now limit window = (false, pruneTimes times (now - window))) ∧
    (∀ times now, 0 < limit → (∀ u ∈ times, u ≤ now - window) →
        (isAllowedTimes times now limit window).1 = true) := by
  refine ⟨?_, ?_, ?_, ?_⟩
  · intro times now
    unfold isAllowedTimes
    by_cases h : limit ≤ (pruneTimes times (now - window)).length
    · rw [if_pos h, if_neg (Nat.not_lt.mpr h)]
    · rw [if_neg h, if_pos (Nat.not_le.mp h)]
  · intro s
    unfold limiterRun
    cases reqs with
    | nil => simp [limiterRunAux]
    | cons t ts =>
      obtain ⟨hhead, htail⟩ := List.pairwise_cons.mp hmono
      refine limiterRunAux_interval_bound limit window hw (t :: ts) [] [] t
        (List.pairwise_cons.mpr ⟨hhead, htail⟩) ?_ (by simp) (by intro s; simp) s
      intro x hx
      rcases List.mem_cons.mp hx with h | h
      · omega
      · exact hhead x h
  · intro times now h
    unfold isAllowedTimes
    rw [if_pos h]
  · intro times now hlim hall
    have hnil : pruneTimes times (now - window) = [] := by
      rw [pruneTimes, List.filter_eq_nil_iff]
      intro a ha
      simp only [decide_eq_true_eq, not_lt]
      exact hall a ha
    unfold isAllowedTimes
    rw [hnil]
    simp only [List.length_nil]
    rw [if_neg (by omega : ¬ limit ≤ 0)]

/-- C2 witness: the interval bound applied to a concrete trace. -/
theorem c2_rate_limiter_sliding_window_witness :
    (((limiterRun 2 10 [0, 1, 2, 11]).2.filter
      (fun u => decide ((0 : Int) < u) && decide (u ≤ 0 + 10))).length ≤ 2) :=
  (c2_rate_limiter_sliding_window 2 10 [0, 1, 2, 11] (by decide) (by decide)).2.1 0

end StudiousPancake
